import Mathlib

/-!
Verification development for the myqlm-interop repository.

Two source files are embedded directly:
`packaged/lib/qat/interop/ocirc2acirc.py` (register indexing and the qubit
allocation count of `to_qlm_circ`) and the two `generate_qlm_result`
converters (`qat/interop/qiskit/providers.py`, `qat/interop/pyquil/providers.py`).

The OpenQASM-dialect parser (`OqasmParser`, `extract_inc`) is exercised by
`tests/openqasm_test.py` but its implementation is not part of the supplied
source tree; the definitions below that concern it are modelled from the
specification (statement-level semantics of §2-§4 and §8 of the spec), and
each such definition's doc comment starts with "Modelled from the spec:".
Rational numbers stand in for the source's floating-point values; real
numbers are used where the constant `pi` matters.
-/

/-- Modelled from the spec: arithmetic parameter expressions of the parser
(§4.1) — literals, the symbolic constant `pi`, routine formal parameters,
the operators `+ - * /`, unary minus and parenthesization. The parser engine
itself is absent from the supplied source. -/
inductive AExp where
  | num (q : ℚ)
  | piC
  | var (s : String)
  | neg (e : AExp)
  | add (e₁ e₂ : AExp)
  | sub (e₁ e₂ : AExp)
  | mul (e₁ e₂ : AExp)
  | div (e₁ e₂ : AExp)
deriving Repr, DecidableEq

/-- Modelled from the spec: evaluation of a parameter expression (§4.1).
`piv` is the value of `pi` and `env` the bindings of the enclosing routine's
formal parameters (spec §4.1: no lookup beyond the active routine's formals
and `pi`); the generic field `α` is instantiated with `ℚ` or `ℝ`. -/
def aeval (α : Type) [Field α] (piv : α) (env : String → α) : AExp → α
  | .num q => (q : α)
  | .piC => piv
  | .var s => env s
  | .neg e => -(aeval α piv env e)
  | .add e₁ e₂ => aeval α piv env e₁ + aeval α piv env e₂
  | .sub e₁ e₂ => aeval α piv env e₁ - aeval α piv env e₂
  | .mul e₁ e₂ => aeval α piv env e₁ * aeval α piv env e₂
  | .div e₁ e₂ => aeval α piv env e₁ / aeval α piv env e₂

/-- Modelled from the spec: the tokens of a parameter expression. -/
inductive Tok where
  | tnum (q : ℚ)
  | tpi
  | tid (s : String)
  | tplus
  | tminus
  | tstar
  | tslash
  | tlp
  | trp
deriving Repr, DecidableEq

/-- Numeric value of a decimal digit character. -/
def digitVal (c : Char) : Nat := c.toNat - 48

/-- Value of a run of decimal digit characters. -/
def natOfDigits (ds : List Char) : Nat := ds.foldl (fun a c => a * 10 + digitVal c) 0

/-- Modelled from the spec: tokenizer for parameter expressions (integer
literals, `pi`, identifiers, `+ - * / ( )`, permissive interior whitespace).
The fuel argument bounds the recursion; one character is consumed per step. -/
def tokenizeAux : Nat → List Char → Option (List Tok)
  | 0, [] => some []
  | 0, _ :: _ => none
  | _ + 1, [] => some []
  | n + 1, c :: cs =>
    if c = ' ' ∨ c = '\n' ∨ c = '\t' then tokenizeAux n cs
    else if c = '+' then (tokenizeAux n cs).map (fun ts => Tok.tplus :: ts)
    else if c = '-' then (tokenizeAux n cs).map (fun ts => Tok.tminus :: ts)
    else if c = '*' then (tokenizeAux n cs).map (fun ts => Tok.tstar :: ts)
    else if c = '/' then (tokenizeAux n cs).map (fun ts => Tok.tslash :: ts)
    else if c = '(' then (tokenizeAux n cs).map (fun ts => Tok.tlp :: ts)
    else if c = ')' then (tokenizeAux n cs).map (fun ts => Tok.trp :: ts)
    else if c.isDigit then
      let ds := (c :: cs).takeWhile Char.isDigit
      (tokenizeAux n ((c :: cs).dropWhile Char.isDigit)).map
        (fun ts => Tok.tnum ((natOfDigits ds : Nat) : ℚ) :: ts)
    else if c.isAlpha then
      let ls := (c :: cs).takeWhile Char.isAlpha
      let nm := String.mk ls
      (tokenizeAux n ((c :: cs).dropWhile Char.isAlpha)).map
        (fun ts => (if nm = "pi" then Tok.tpi else Tok.tid nm) :: ts)
    else none

/-- Modelled from the spec: recursive-descent expression parser with the
standard precedence tiers (§4.1: standard operator precedence and
left-to-right associativity within a tier). The second argument is the
grammar level: 0 additive expression, 1 multiplicative expression, 2 factor
(unary minus, literal, `pi`, identifier, parenthesized expression),
3 additive loop and 4 multiplicative loop carrying the accumulator. Fuel
decreases at every step. -/
def parseA : Nat → Nat → AExp → List Tok → Option (AExp × List Tok)
  | 0, _, _, _ => none
  | n + 1, 0, _, ts =>
    match parseA n 1 (AExp.num 0) ts with
    | some (e, rest) => parseA n 3 e rest
    | none => none
  | n + 1, 1, _, ts =>
    match parseA n 2 (AExp.num 0) ts with
    | some (e, rest) => parseA n 4 e rest
    | none => none
  | n + 1, 2, _, ts =>
    match ts with
    | Tok.tminus :: rest =>
      (parseA n 2 (AExp.num 0) rest).map (fun p => (AExp.neg p.1, p.2))
    | Tok.tnum q :: rest => some (AExp.num q, rest)
    | Tok.tpi :: rest => some (AExp.piC, rest)
    | Tok.tid s :: rest => some (AExp.var s, rest)
    | Tok.tlp :: rest =>
      match parseA n 0 (AExp.num 0) rest with
      | some (e, Tok.trp :: r₂) => some (e, r₂)
      | _ => none
    | _ => none
  | n + 1, 3, acc, ts =>
    match ts with
    | Tok.tplus :: rest =>
      match parseA n 1 (AExp.num 0) rest with
      | some (e, r₂) => parseA n 3 (AExp.add acc e) r₂
      | none => none
    | Tok.tminus :: rest =>
      match parseA n 1 (AExp.num 0) rest with
      | some (e, r₂) => parseA n 3 (AExp.sub acc e) r₂
      | none => none
    | _ => some (acc, ts)
  | n + 1, 4, acc, ts =>
    match ts with
    | Tok.tstar :: rest =>
      match parseA n 2 (AExp.num 0) rest with
      | some (e, r₂) => parseA n 4 (AExp.mul acc e) r₂
      | none => none
    | Tok.tslash :: rest =>
      match parseA n 2 (AExp.num 0) rest with
      | some (e, r₂) => parseA n 4 (AExp.div acc e) r₂
      | none => none
    | _ => some (acc, ts)
  | _ + 1, _ + 5, _, _ => none

/-- Modelled from the spec: parse a full token list as one expression. -/
def parseToks (ts : List Tok) : Option AExp :=
  match parseA (4 * ts.length + 8) 0 (AExp.num 0) ts with
  | some (e, []) => some e
  | _ => none

/-- Modelled from the spec: parse a parameter expression from its surface
text. -/
def parseParamExp (s : String) : Option AExp :=
  (tokenizeAux (s.length + 1) s.toList).bind parseToks

/-- The expression denoted by a surface text (grammar-error fallback `0`;
all texts used below parse successfully, witnessed by the `expOf_*`
equations). -/
def expOf (s : String) : AExp := (parseParamExp s).getD (AExp.num 0)

/-- Modelled from the spec: the standard gate table of §4.2 and the tests'
`GATE_DATA` — entries are (canonical name, surface token, nb of qubit
operands, nb of parameters). The surface tokens observed in the tests are
`x`, `u2`, `cu1`, `cu2`, `cu3`, `crz`, `cx` and `U`; the rest follow the
same lower-casing convention. -/
def standardGates : List (String × String × Nat × Nat) :=
  [("H", "h", 1, 0), ("X", "x", 1, 0), ("Y", "y", 1, 0), ("Z", "z", 1, 0),
   ("I", "id", 1, 0), ("U", "U", 1, 3), ("U1", "u1", 1, 1), ("U2", "u2", 1, 2),
   ("U3", "u3", 1, 3), ("PH", "ph", 1, 1), ("CU1", "cu1", 2, 1),
   ("CU2", "cu2", 2, 2), ("CU3", "cu3", 2, 3), ("CH", "ch", 2, 0),
   ("CRZ", "crz", 2, 1), ("S", "s", 1, 0), ("SDG", "sdg", 1, 0),
   ("T", "t", 1, 0), ("TDG", "tdg", 1, 0), ("RX", "rx", 1, 1),
   ("RY", "ry", 1, 1), ("RZ", "rz", 1, 1), ("CNOT", "cx", 2, 0),
   ("CCNOT", "ccx", 3, 0)]

/-- Modelled from the spec: the parser's exposed `standard_gates` mapping.
As the tests build `reverse_dic` by swapping each key-value pair of
`standard_gates` and then index `reverse_dic` by canonical names, the
mapping itself goes from surface token to canonical name. -/
def standard_gates : List (String × String) := standardGates.map (fun e => (e.2.1, e.1))

/-- The reversed mapping used by the tests: canonical name → surface token. -/
def reverse_dic : List (String × String) := standard_gates.map (fun p => (p.2, p.1))

/-- First value bound to a key in an association list of strings. -/
def lookupStr (m : List (String × String)) (k : String) : Option String :=
  (m.find? (fun p => p.1 = k)).map (fun p => p.2)

/-- Lexer-side lookup of a surface token: canonical name, qubit arity and
parameter count. -/
def surfaceLookup (s : String) : Option (String × Nat × Nat) :=
  (standardGates.find? (fun e => e.2.1 = s)).map (fun e => (e.1, e.2.2.1, e.2.2.2))

/-- Modelled from the spec: a qubit operand of a gate invocation — either a
formal qubit name of the enclosing routine body, or a register reference
`reg[i]` at top level. -/
inductive QArg where
  | formal (s : String)
  | ref (reg : String) (i : Nat)
deriving Repr, DecidableEq

/-- Modelled from the spec: one gate/routine invocation — name, parameter
expressions and qubit operands (§4.2: at most one parameter list and one
qubit-argument list per invocation). -/
structure GInvoke where
  name : String
  params : List AExp
  qargs : List QArg
deriving Repr, DecidableEq

/-- Modelled from the spec: a user-declared routine — formal parameters,
formal qubit arguments and a body of invocations (§3 GateDefinition). -/
structure RoutineDef where
  formals : List String
  qformals : List String
  body : List GInvoke
deriving Repr, DecidableEq

/-- Modelled from the spec: statements after the header — gate declaration,
gate application, conditional, measurement, reset (§4.3). -/
inductive QStmt where
  | gateDecl (name : String) (d : RoutineDef)
  | apply (g : GInvoke)
  | ifeq (creg : String) (lit : Nat) (s : QStmt)
  | measureS (q : String) (c : String)
  | resetS (q : String)
deriving Repr, DecidableEq

/-- Modelled from the spec: a program — header register declarations in
declaration order, then statements (§4.3). -/
structure QProg where
  qregs : List (String × Nat)
  cregs : List (String × Nat)
  stmts : List QStmt
deriving Repr, DecidableEq

/-- Modelled from the spec: the kind tag of an emitted operation (§6). -/
inductive OpKind where
  | GATETYPE
  | CLASSICCTRL
  | MEASURE
  | RESET
deriving Repr, DecidableEq

/-- Modelled from the spec: an emitted operation record —
`{gate, params, qbits, cbits, type, formula}` (§6). -/
structure COp (α : Type) where
  gate : String
  params : List α
  qbits : List Nat
  type : OpKind
  formula : Option String
  cbits : Option (List Nat)
deriving Repr, DecidableEq

/-- Modelled from the spec: the error taxonomy surfaced to the caller (§6,
§7): `ImplementationError`, `InvalidParameterNumber`, generic parse
failure. -/
inductive PErr where
  | implementationError
  | invalidParameterNumber
  | grammarError
deriving Repr, DecidableEq

/-- Modelled from the spec: flat index of `name[i]` — the sum of the sizes
of all registers declared before the named register, plus the local index
(§4.3); `none` for an unknown register or an out-of-range index. -/
def flatIndex : List (String × Nat) → String → Nat → Option Nat
  | [], _, _ => none
  | (nm, sz) :: rest, name, i =>
    if nm = name then (if i < sz then some i else none)
    else (flatIndex rest name i).map (fun k => k + sz)

/-- Flat indices of a whole register, for register-wide `measure`/`reset`. -/
def regIndices : List (String × Nat) → String → Option (List Nat)
  | [], _ => none
  | (nm, sz) :: rest, name =>
    if nm = name then some (List.range sz)
    else (regIndices rest name).map (List.map (fun k => k + sz))

/-- Declared width of a classical register. -/
def cregWidth (cregs : List (String × Nat)) (name : String) : Option Nat :=
  (cregs.find? (fun r => r.1 = name)).map (fun r => r.2)

/-- Extend an environment with bindings of names to values, in declared
order (spec §4.4 step 1). -/
def bindList (α : Type) : List String → List α → (String → α) → String → α
  | n :: ns, v :: vs, env => fun s => if s = n then v else bindList α ns vs env s
  | _, _, env => env

/-- Resolve one qubit operand: a formal name through the routine's qubit
bindings, a register reference through the flat register layout. -/
def resolveArg (qregs : List (String × Nat)) (qenv : String → Nat) : QArg → Option Nat
  | .formal s => some (qenv s)
  | .ref reg i => flatIndex qregs reg i

/-- Resolve a list of qubit operands. -/
def resolveArgs (qregs : List (String × Nat)) (qenv : String → Nat) :
    List QArg → Option (List Nat)
  | [] => some []
  | a :: as =>
    match resolveArg qregs qenv a, resolveArgs qregs qenv as with
    | some v, some vs => some (v :: vs)
    | _, _ => none

/-- Look a routine name up in the routine table (held in reverse declaration
order); returns the declarations made strictly earlier together with the
routine, realizing §4.2's "may reference previously declared routines". -/
def lookupRoutine : List (String × RoutineDef) → String → Option (List (String × RoutineDef) × RoutineDef)
  | [], _ => none
  | (nm, rd) :: rest, s => if s = nm then some (rest, rd) else lookupRoutine rest s

/-- Modelled from the spec: emission of a single standard-gate application —
parameter count then qubit arity are checked (`InvalidParameterNumber` on
mismatch, §4.2/§4.3), parameters are evaluated (§4.1) and qubit operands
resolved to flat indices; the emitted record carries a null formula (§4.5). -/
def emitStd (α : Type) [Field α] (piv : α) (qregs : List (String × Nat))
    (env : String → α) (qenv : String → Nat) (g : GInvoke) :
    Except PErr (List (COp α)) :=
  match surfaceLookup g.name with
  | none => Except.error PErr.grammarError
  | some (canon, arity, pc) =>
    if g.params.length = pc then
      if g.qargs.length = arity then
        match resolveArgs qregs qenv g.qargs with
        | some qvals =>
          Except.ok [⟨canon, g.params.map (aeval α piv env), qvals,
                      OpKind.GATETYPE, none, none⟩]
        | none => Except.error PErr.grammarError
      else Except.error PErr.invalidParameterNumber
    else Except.error PErr.invalidParameterNumber

/-- Modelled from the spec: the routine expander (§4.4). Processes a list of
invocations: a call to a declared routine binds formal parameters to the
evaluated actual parameter expressions and formal qubits to resolved
operands, then recursively expands the body against the strictly earlier
declarations; a standard gate is emitted directly. The fuel argument is an
embedding artifact bounding the recursion depth (declaration order already
precludes self-recursion, §4.4); it decreases at every step, so any
sufficiently large value yields the same result. -/
def emitInvokes (α : Type) [Field α] (piv : α) (qregs : List (String × Nat)) :
    Nat → List (String × RoutineDef) → (String → α) → (String → Nat) →
    List GInvoke → Except PErr (List (COp α))
  | 0, _, _, _, _ => Except.error PErr.grammarError
  | _ + 1, _, _, _, [] => Except.ok []
  | n + 1, table, env, qenv, g :: gs =>
    let hd : Except PErr (List (COp α)) :=
      match lookupRoutine table g.name with
      | some (earlier, rd) =>
        if g.params.length = rd.formals.length ∧ g.qargs.length = rd.qformals.length then
          match resolveArgs qregs qenv g.qargs with
          | some qvals =>
            emitInvokes α piv qregs n earlier
              (bindList α rd.formals (g.params.map (aeval α piv env)) env)
              (bindList Nat rd.qformals qvals qenv) rd.body
          | none => Except.error PErr.grammarError
        else Except.error PErr.invalidParameterNumber
      | none => emitStd α piv qregs env qenv g
    match hd with
    | Except.error e => Except.error e
    | Except.ok ops₁ =>
      match emitInvokes α piv qregs n table env qenv gs with
      | Except.error e => Except.error e
      | Except.ok ops₂ => Except.ok (ops₁ ++ ops₂)

/-- Modelled from the spec: the boolean term of one bit position of
`creg == literal` — positions are indexed most-significant bit first; a
positive term for a required 1-bit, a `NOT` term for a required 0-bit
(§4.5). Each term is serialized with a trailing space. -/
def bitTerm (width lit i : Nat) : String :=
  if Nat.testBit lit (width - 1 - i) then toString i ++ " "
  else "NOT " ++ toString i ++ " "

/-- Modelled from the spec: the conditional formula of `creg == literal` —
all bit terms combined pairwise with `AND` folded left-to-right, serialized
as a flat prefix token string (§4.5). -/
def mkFormula (width lit : Nat) : String :=
  match (List.range width).map (bitTerm width lit) with
  | [] => ""
  | t :: ts => ts.foldl (fun a b => "AND " ++ a ++ b) t

/-- Modelled from the spec: processing of one statement against the routine
table, returning the updated table and the emitted operations (§2, §4.3-§4.5):
a `gate` declaration extends the table (collision with a standard gate or an
earlier routine is a definition error); a gate application is expanded and
emitted; `if (creg == lit) stmt` rejects `measure` and `reset` bodies with
`ImplementationError`, omits the operation entirely when `lit ≥ 2 ^ width`,
and otherwise emits the guarded operation as `CLASSICCTRL` carrying the
formula; top-level `measure`/`reset` emit their own records. -/
def processStmt (α : Type) [Field α] (piv : α) (qregs cregs : List (String × Nat))
    (fuel : Nat) (table : List (String × RoutineDef)) :
    QStmt → Except PErr (List (String × RoutineDef) × List (COp α))
  | .gateDecl nm rd =>
    if (lookupRoutine table nm).isSome ∨ (surfaceLookup nm).isSome then
      Except.error PErr.grammarError
    else Except.ok ((nm, rd) :: table, [])
  | .apply g =>
    match emitInvokes α piv qregs fuel table (fun _ => 0) (fun _ => 0) [g] with
    | Except.ok ops => Except.ok (table, ops)
    | Except.error e => Except.error e
  | .ifeq creg lit s =>
    match s with
    | .measureS _ _ => Except.error PErr.implementationError
    | .resetS _ => Except.error PErr.implementationError
    | .apply g =>
      match cregWidth cregs creg with
      | none => Except.error PErr.grammarError
      | some w =>
        if 2 ^ w ≤ lit then Except.ok (table, [])
        else
          match emitInvokes α piv qregs fuel table (fun _ => 0) (fun _ => 0) [g] with
          | Except.ok ops =>
            Except.ok (table, ops.map (fun o =>
              { o with type := OpKind.CLASSICCTRL, formula := some (mkFormula w lit) }))
          | Except.error e => Except.error e
    | _ => Except.error PErr.grammarError
  | .measureS q c =>
    match regIndices qregs q, regIndices cregs c with
    | some qs, some cs =>
      Except.ok (table, [⟨"measure", [], qs, OpKind.MEASURE, none, some cs⟩])
    | _, _ => Except.error PErr.grammarError
  | .resetS q =>
    match regIndices qregs q with
    | some qs => Except.ok (table, [⟨"reset", [], qs, OpKind.RESET, none, none⟩])
    | none => Except.error PErr.grammarError

/-- Modelled from the spec: process the statement list in order, threading
the routine table and accumulating emitted operations (§2). -/
def runStmts (α : Type) [Field α] (piv : α) (qregs cregs : List (String × Nat))
    (fuel : Nat) : List (String × RoutineDef) → List QStmt →
    Except PErr (List (COp α))
  | _, [] => Except.ok []
  | table, s :: rest =>
    match processStmt α piv qregs cregs fuel table s with
    | Except.error e => Except.error e
    | Except.ok (table₂, ops₁) =>
      match runStmts α piv qregs cregs fuel table₂ rest with
      | Except.error e => Except.error e
      | Except.ok ops₂ => Except.ok (ops₁ ++ ops₂)

/-- Modelled from the spec: a full parse — on success the integer success
indicator 1 together with the emitted operation list (§4.3); otherwise the
raised error. -/
def parseProg (α : Type) [Field α] (piv : α) (fuel : Nat) (p : QProg) :
    Except PErr (Nat × List (COp α)) :=
  match runStmts α piv p.qregs p.cregs fuel [] p.stmts with
  | Except.ok ops => Except.ok (1, ops)
  | Except.error e => Except.error e


/-- Modelled from the spec: the include-flattening pre-pass `extract_inc`
(§4.3): an `include "name";` directive line is replaced, depth-first and
recursively, by the full contents of the named file before any tokenization.
The file system is a finite map from names to contents. -/
def stripChars : List Char → List Char → Option (List Char)
  | [], rest => some rest
  | _ :: _, [] => none
  | p :: ps, c :: cs => if c = p then stripChars ps cs else none

/-- Name of the included file when a line is an `include "name";`
directive. -/
def inclName (cs : List Char) : Option String :=
  match stripChars ("include \"").toList cs with
  | none => none
  | some rest => some (String.mk (rest.takeWhile (fun c => c ≠ '"')))

/-- Split a character list into its newline-separated lines. -/
def splitLinesAux : List Char → List Char → List String
  | [], acc => [String.mk acc.reverse]
  | c :: cs, acc =>
    if c = '\n' then String.mk acc.reverse :: splitLinesAux cs []
    else splitLinesAux cs (c :: acc)

/-- The newline-separated lines of a text. -/
def splitLines (s : String) : List String := splitLinesAux s.toList []

/-- Drop the empty lines a trailing newline produces at the end. -/
def dropLastEmpty (ls : List String) : List String :=
  (ls.reverse.dropWhile (fun l => l = "")).reverse

/-- Modelled from the spec: flatten a list of raw text lines — an include
directive line is replaced by the flattened contents of the named file,
every other line is kept, in textual order. The fuel decreases at every
step (the spec leaves include cycles undefended, §9). -/
def extractLines (fs : String → Option String) : Nat → List String → Option String
  | 0, _ => none
  | _ + 1, [] => some ""
  | n + 1, l :: rest =>
    let hd : Option String :=
      match inclName l.toList with
      | some nm =>
        match fs nm with
        | some txt => extractLines fs n (dropLastEmpty (splitLines txt))
        | none => none
      | none => some (l ++ "\n")
    match hd, extractLines fs n rest with
    | some a, some b => some (a ++ b)
    | _, _ => none

/-- Modelled from the spec: `extract_inc` — flatten the named file's
contents (§4.3, §8). -/
def extract_inc (fs : String → Option String) (fuel : Nat) (name : String) :
    Option String :=
  match fs name with
  | some txt => extractLines fs fuel (dropLastEmpty (splitLines txt))
  | none => none

/-- The three-file fixture of the recursive-inclusion test:
`test1` includes `test2`, which includes `test3`. -/
def incFS : String → Option String
  | "test1" => some "include \"test2\";\n4\n5\n"
  | "test2" => some "1\ninclude \"test3\";\n3\n"
  | "test3" => some "2\n"
  | _ => none


/-- Embeds `get_qindex` of `packaged/lib/qat/interop/ocirc2acirc.py`
(accumulator form of its loop): walk the registers in declaration order,
adding the size of every register whose name differs, and return the
accumulated offset plus the local index at the first name match; `none`
when the loop falls through (the Python function implicitly returns
`None`). Registers are (name, size) pairs. -/
def get_qindexAux : List (String × Nat) → String → Nat → Nat → Option Nat
  | [], _, _, _ => none
  | (nm, sz) :: rest, name, index, ret =>
    if name ≠ nm then get_qindexAux rest name index (ret + sz)
    else some (ret + index)

/-- `get_qindex(circ, name, index)` of `ocirc2acirc.py` with `ret = 0`. -/
def get_qindex (qregs : List (String × Nat)) (name : String) (index : Nat) :
    Option Nat :=
  get_qindexAux qregs name index 0

/-- Embeds the qubit-counting loop of `to_qlm_circ` of `ocirc2acirc.py`:
`qbits_num += qbits_num + reg.size` for each register, starting from 0 —
i.e. the accumulator becomes `2 * acc + size` at each step. The classical
bit count `cbits_num` is computed by an identical loop over `cregs`. -/
def to_qlm_circ_qbits_num (qregs : List (String × Nat)) : Nat :=
  qregs.foldl (fun acc r => acc + (acc + r.2)) 0

/-- A result sample as produced by the two `generate_qlm_result`
converters: state, probability, optional error bar. -/
structure Sample (α : Type) where
  state : Nat
  probability : α
  err : Option α
deriving Repr, DecidableEq

namespace Qiskit

/-- Embeds `generate_qlm_result` of `qat/interop/qiskit/providers.py`:
from the shot count and the (state, frequency) counts of the first
experiment, produce one sample per counted state with probability
`freq / nbshots` and error bar
`sqrt(freq / nbshots * (1 - freq / nbshots) / (nbshots - 1))` when
`nbshots > 1`, `None` otherwise. `sqrtf` stands for `numpy.sqrt`;
extraction of `nbshots` and of the hex-keyed counts dictionary from the
qiskit result object is SDK glue left outside the embedding. -/
def generate_qlm_result (α : Type) [Field α] (sqrtf : α → α) (nbshots : Nat)
    (counts : List (Nat × Nat)) : List (Sample α) :=
  counts.map (fun sf =>
    { state := sf.1
      probability := (sf.2 : α) / (nbshots : α)
      err :=
        if 1 < nbshots then
          some (sqrtf ((sf.2 : α) / (nbshots : α) * (1 - (sf.2 : α) / (nbshots : α)) /
            ((nbshots : α) - 1)))
        else none })

end Qiskit

namespace Pyquil

/-- Python's `collections.Counter` over a list: (value, frequency) pairs in
first-occurrence order. -/
def counter : List Nat → List (Nat × Nat) → List (Nat × Nat)
  | [], acc => acc
  | x :: xs, acc =>
    if acc.any (fun p => p.1 = x) then
      counter xs (acc.map (fun p => if p.1 = x then (p.1, p.2 + 1) else p))
    else counter xs (acc ++ [(x, 1)])

/-- Embeds `generate_qlm_result` of `qat/interop/pyquil/providers.py`. The
input is the pyquil measurement matrix (row = trial, column = qubit);
`nbshots` is the number of rows and each row is packed into the integer
`sum(b << i)` over its enumerated bits. The source's error-bar expression
is `np.sqrt(freq / nbshots*(1.-freq/nbshots)(nbshots-1))`: the
parenthesized factor `(nbshots-1)` is *applied* to the float
`1.-freq/nbshots` (a `/` is missing), so building any sample with
`nbshots > 1` raises `TypeError` at runtime; this is embedded as
`Except.error`. With `nbshots <= 1` the error bar is `None` and the
samples are built normally. -/
def generate_qlm_result (α : Type) [Field α] (rows : List (List Nat)) :
    Except String (List (Sample α)) :=
  let nbshots := rows.length
  let measurements := rows.map (fun entry => (entry.enum.map (fun bi => bi.2 <<< bi.1)).sum)
  let counts := counter measurements []
  match counts.mapM (fun sf =>
    if 1 < nbshots then
      Except.error "TypeError: float object is not callable"
    else
      Except.ok ({ state := sf.1, probability := (sf.2 : α) / (nbshots : α),
                   err := none } : Sample α)) with
  | Except.ok raw => Except.ok raw
  | Except.error e => Except.error e

end Pyquil


/-- The guarded `U(0,pi/2,0) q[1]` invocation of the conditional test. -/
def uInv : GInvoke := ⟨"U", [expOf "0", expOf "pi/2", expOf "0"], [QArg.ref "q" 1]⟩

/-- The conditional-test program over the test header `qreg q[4]; creg c[4];`:
`if (c==13) U(0,pi/2,0) q[1]; if (c==20) x q[1]; x q[2];`. -/
def prog1 : QProg :=
  ⟨[("q", 4)], [("c", 4)],
   [QStmt.ifeq "c" 13 (QStmt.apply uInv),
    QStmt.ifeq "c" 20 (QStmt.apply ⟨"x", [], [QArg.ref "q" 1]⟩),
    QStmt.apply ⟨"x", [], [QArg.ref "q" 2]⟩]⟩

/-- An invocation of a surface token with `np` zero-literal parameters and
`nq` distinct qubit operands of register `q`. -/
def dummyInvoke (surface : String) (np nq : Nat) : GInvoke :=
  ⟨surface, (List.range np).map (fun _ => AExp.num 0), (List.range nq).map (QArg.ref "q")⟩

/-- A single-application program over the test header. -/
def applyProg (g : GInvoke) : QProg := ⟨[("q", 4)], [("c", 4)], [QStmt.apply g]⟩

/-- The body of the recursion test's routine `rp(p)`: gates whose first
parameter expression is `(-p)` over the formal qubit `a1`. -/
def rpBody : List GInvoke :=
  [⟨"U", [AExp.neg (AExp.var "p"), AExp.var "p", AExp.num 0], [QArg.formal "a1"]⟩,
   ⟨"u1", [AExp.neg (AExp.var "p")], [QArg.formal "a1"]⟩,
   ⟨"rx", [AExp.neg (AExp.var "p")], [QArg.formal "a1"]⟩,
   ⟨"ry", [AExp.neg (AExp.var "p")], [QArg.formal "a1"]⟩,
   ⟨"rz", [AExp.neg (AExp.var "p")], [QArg.formal "a1"]⟩]

/-- The routine `gate rp(p) a1` of the recursion test. -/
def rpDef : RoutineDef := ⟨["p"], ["a1"], rpBody⟩

/-- The routine `gate rrp(q) a1` whose body is `rp(3*(-q)+2) a1;`. -/
def rrpDef : RoutineDef := ⟨["q"], ["a1"], [⟨"rp", [expOf "3*(-q)+2"], [QArg.formal "a1"]⟩]⟩

/-- The two-level-nesting program of the recursion test: declare `rp` and
`rrp`, then call `rrp(-pi/2) q[1]; rrp(-3*5+4) q[2]; rrp(-3+5*4) q[3];
rrp(-3*(5+4)) q[3];`. -/
def prog3 : QProg :=
  ⟨[("q", 4)], [("c", 4)],
   [QStmt.gateDecl "rp" rpDef,
    QStmt.gateDecl "rrp" rrpDef,
    QStmt.apply ⟨"rrp", [expOf "-pi/2"], [QArg.ref "q" 1]⟩,
    QStmt.apply ⟨"rrp", [expOf "-3*5+4"], [QArg.ref "q" 2]⟩,
    QStmt.apply ⟨"rrp", [expOf "-3+5*4"], [QArg.ref "q" 3]⟩,
    QStmt.apply ⟨"rrp", [expOf "-3*(5+4)"], [QArg.ref "q" 3]⟩]⟩

/-- The value the expander binds to `rrp`'s formal `q` for the actual
parameter text `s`, composed with the substitution into `rp`'s actual
parameter `3*(-q)+2` — i.e. the value bound to `rp`'s formal `p` (§4.4
steps 1-2). -/
def rrpBoundVal (α : Type) [Field α] (piv : α) (s : String) : α :=
  aeval α piv
    (bindList α ["q"] [aeval α piv (fun _ => 0) (expOf s)] (fun _ => 0))
    (expOf "3*(-q)+2")

/-- The body of routine `rp(p) a1, a2` of the arithmetic-parameter test
(`test__routines_with_eval_params`), one gate per parametrized entry of
`GATE_DATA` in table order, each taking `(-p)` as its first parameter. -/
def rp4Body : List GInvoke :=
  [⟨"U", [AExp.neg (AExp.var "p"), AExp.num 0, AExp.num 0], [QArg.formal "a1"]⟩,
   ⟨"u1", [AExp.neg (AExp.var "p")], [QArg.formal "a1"]⟩,
   ⟨"u2", [AExp.neg (AExp.var "p"), AExp.num 0], [QArg.formal "a1"]⟩,
   ⟨"U", [AExp.neg (AExp.var "p"), AExp.num 0, AExp.num 0], [QArg.formal "a1"]⟩,
   ⟨"ph", [AExp.neg (AExp.var "p")], [QArg.formal "a1"]⟩,
   ⟨"cu1", [AExp.neg (AExp.var "p")], [QArg.formal "a1", QArg.formal "a2"]⟩,
   ⟨"cu2", [AExp.neg (AExp.var "p"), AExp.num 0], [QArg.formal "a1", QArg.formal "a2"]⟩,
   ⟨"cu3", [AExp.neg (AExp.var "p"), AExp.num 0, AExp.num 0], [QArg.formal "a1", QArg.formal "a2"]⟩,
   ⟨"crz", [AExp.neg (AExp.var "p")], [QArg.formal "a1", QArg.formal "a2"]⟩,
   ⟨"rx", [AExp.neg (AExp.var "p")], [QArg.formal "a1"]⟩,
   ⟨"ry", [AExp.neg (AExp.var "p")], [QArg.formal "a1"]⟩,
   ⟨"rz", [AExp.neg (AExp.var "p")], [QArg.formal "a1"]⟩]

/-- The routine `gate rp(p) a1, a2` of the arithmetic-parameter test. -/
def rp4Def : RoutineDef := ⟨["p"], ["a1", "a2"], rp4Body⟩

/-- The arithmetic-parameter test program: declare `rp`, then call
`rp(-3*(5+4)) q[0], q[1]; rp(-pi/2) q[1], q[2]; rp(-3*5+4) q[2], q[1];
rp(-3+5*4) q[3], q[1];`. -/
def prog4 : QProg :=
  ⟨[("q", 4)], [("c", 4)],
   [QStmt.gateDecl "rp" rp4Def,
    QStmt.apply ⟨"rp", [expOf "-3*(5+4)"], [QArg.ref "q" 0, QArg.ref "q" 1]⟩,
    QStmt.apply ⟨"rp", [expOf "-pi/2"], [QArg.ref "q" 1, QArg.ref "q" 2]⟩,
    QStmt.apply ⟨"rp", [expOf "-3*5+4"], [QArg.ref "q" 2, QArg.ref "q" 1]⟩,
    QStmt.apply ⟨"rp", [expOf "-3+5*4"], [QArg.ref "q" 3, QArg.ref "q" 1]⟩]⟩

/-- The value the expander binds to `rp`'s formal `p` for the actual
parameter text `s` (§4.4 step 1: formals are bound to the evaluated actual
parameter expressions). -/
def rpBoundVal (α : Type) [Field α] (piv : α) (s : String) : α :=
  aeval α piv (fun _ => 0) (expOf s)

/-- Equality of `Except` results is decidable componentwise. -/
def exceptDecEq {ε α : Type} [DecidableEq ε] [DecidableEq α] :
    (a b : Except ε α) → Decidable (a = b)
  | .ok x, .ok y =>
    match decEq x y with
    | isTrue h => isTrue (by rw [h])
    | isFalse h => isFalse (by intro hc; cases hc; exact h rfl)
  | .ok _, .error _ => isFalse (by intro hc; cases hc)
  | .error _, .ok _ => isFalse (by intro hc; cases hc)
  | .error x, .error y =>
    match decEq x y with
    | isTrue h => isTrue (by rw [h])
    | isFalse h => isFalse (by intro hc; cases hc; exact h rfl)

instance {ε α : Type} [DecidableEq ε] [DecidableEq α] : DecidableEq (Except ε α) :=
  exceptDecEq

theorem expOf_pi_half : expOf "-pi/2" = AExp.div (AExp.neg AExp.piC) (AExp.num 2) := by
  decide

theorem expOf_paren : expOf "-3*(5+4)" =
    AExp.mul (AExp.neg (AExp.num 3)) (AExp.add (AExp.num 5) (AExp.num 4)) := by decide

theorem expOf_mul_add : expOf "-3*5+4" =
    AExp.add (AExp.mul (AExp.neg (AExp.num 3)) (AExp.num 5)) (AExp.num 4) := by decide

theorem expOf_add_mul : expOf "-3+5*4" =
    AExp.add (AExp.neg (AExp.num 3)) (AExp.mul (AExp.num 5) (AExp.num 4)) := by decide

theorem expOf_rrp_body : expOf "3*(-q)+2" =
    AExp.add (AExp.mul (AExp.num 3) (AExp.neg (AExp.var "q"))) (AExp.num 2) := by decide

/-- Definitional evaluation of `prog3`: the pipeline emits, per call and in
call order, `rp`'s five body gates whose first parameter is the negation of
the value bound to `rp`'s formal `p` (the substituted and evaluated
`3*(-q)+2`). -/
theorem prog3_params (α : Type) [Field α] (piv : α) :
    (parseProg α piv 100 prog3).map
        (fun r => (r.1, r.2.map (fun o => o.params.headD 0))) =
      Except.ok (1,
        List.replicate 5 (-(rrpBoundVal α piv "-pi/2")) ++
        List.replicate 5 (-(rrpBoundVal α piv "-3*5+4")) ++
        List.replicate 5 (-(rrpBoundVal α piv "-3+5*4")) ++
        List.replicate 5 (-(rrpBoundVal α piv "-3*(5+4)"))) := rfl

/-- Definitional evaluation of `prog4`: the pipeline emits, per call and in
call order, `rp`'s twelve body gates whose first parameter is the negation
of the value bound to `rp`'s formal `p`. -/
theorem prog4_params (α : Type) [Field α] (piv : α) :
    (parseProg α piv 100 prog4).map
        (fun r => (r.1, r.2.map (fun o => o.params.headD 0))) =
      Except.ok (1,
        List.replicate 12 (-(rpBoundVal α piv "-3*(5+4)")) ++
        List.replicate 12 (-(rpBoundVal α piv "-pi/2")) ++
        List.replicate 12 (-(rpBoundVal α piv "-3*5+4")) ++
        List.replicate 12 (-(rpBoundVal α piv "-3+5*4"))) := rfl

/-- C1: for a 4-bit classical register `c`, parsing
`if (c==13) U(0,pi/2,0) q[1];` succeeds (success value 1) and emits exactly
one operation, of type `CLASSICCTRL`, whose formula is the string
`"AND AND AND 0 1 NOT 2 3 "` — the binary expansion of 13 padded to width
4, most-significant bit first, a positive term per required 1-bit, a `NOT`
term per required 0-bit, folded left-to-right with `AND` into a flat prefix
token string; and in the full test program every operation not under any
`if` carries formula `none`. -/
theorem implemented_if_formula :
    (parseProg ℚ 0 100 ⟨[("q", 4)], [("c", 4)],
        [QStmt.ifeq "c" 13 (QStmt.apply uInv)]⟩).map
        (fun r => (r.1, r.2.map (fun o => (o.type, o.formula)))) =
      Except.ok (1, [(OpKind.CLASSICCTRL, some "AND AND AND 0 1 NOT 2 3 ")]) ∧
    (parseProg ℚ 0 100 prog1).map
        (fun r => (r.1, r.2.map (fun o => (o.type, o.formula)))) =
      Except.ok (1, [(OpKind.CLASSICCTRL, some "AND AND AND 0 1 NOT 2 3 "),
                     (OpKind.GATETYPE, none)]) := by
  constructor
  · decide
  · decide

/-- C2: a conditional whose literal is at least `2 ^ width` of the guarded
classical register contributes no operation at all and raises no error —
and concretely the three-statement test program (guards 13 and 20 over a
4-bit register plus one unguarded gate) parses with success value 1 and
exactly two emitted operations. -/
theorem always_false_guard_omitted :
    (∀ (piv : ℚ) (qregs cregs : List (String × Nat)) (fuel : Nat)
        (table : List (String × RoutineDef)) (creg : String) (lit w : Nat)
        (g : GInvoke),
        cregWidth cregs creg = some w → 2 ^ w ≤ lit →
        processStmt ℚ piv qregs cregs fuel table
          (QStmt.ifeq creg lit (QStmt.apply g)) = Except.ok (table, [])) ∧
    (parseProg ℚ 0 100 prog1).map (fun r => (r.1, r.2.length)) = Except.ok (1, 2) := by
  constructor
  · intro piv qregs cregs fuel table creg lit w g hw hl
    simp [processStmt, hw, hl]
  · decide

/-- C2 witness: the always-false guard `if (c==20) x q[1];` of the test
(4-bit register, 2^4 = 16 ≤ 20) is omitted entirely. -/
theorem always_false_guard_omitted_witness :
    processStmt ℚ 0 [("q", 4)] [("c", 4)] 100 []
      (QStmt.ifeq "c" 20 (QStmt.apply ⟨"x", [], [QArg.ref "q" 1]⟩)) =
      Except.ok ([], []) :=
  always_false_guard_omitted.1 0 [("q", 4)] [("c", 4)] 100 [] "c" 20 4
    ⟨"x", [], [QArg.ref "q" 1]⟩ (by decide) (by decide)

/-- C3: routine expansion composes parameter substitution across two
nesting levels — with `rp(p)` applying body gates taking `(-p)` and
`rrp(q)` whose body is `rp(3*(-q)+2) a1;`, the call `rrp(-pi/2) q[1];`
emits body gates whose first parameter equals `-(pi*1.5+2)`, and the calls
`rrp(-3*5+4)`, `rrp(-3+5*4)`, `rrp(-3*(5+4))` yield `-35`, `49`, `-83`. -/
theorem nested_routine_substitution :
    (parseProg ℝ Real.pi 100 prog3).map
        (fun r => (r.1, r.2.map (fun o => o.params.headD 0))) =
      Except.ok (1,
        List.replicate 5 (-(Real.pi * 1.5 + 2)) ++ List.replicate 5 (-35) ++
        List.replicate 5 (49 : ℝ) ++ List.replicate 5 (-83)) := by
  rw [prog3_params ℝ Real.pi]
  have h₁ : rrpBoundVal ℝ Real.pi "-pi/2" = Real.pi * 1.5 + 2 := by
    simp [rrpBoundVal, aeval, bindList, natOfDigits, digitVal]
    ring_nf
  have h₂ : rrpBoundVal ℝ Real.pi "-3*5+4" = 35 := by
    simp [rrpBoundVal, aeval, bindList, natOfDigits, digitVal]
    norm_num
  have h₃ : rrpBoundVal ℝ Real.pi "-3+5*4" = -49 := by
    simp [rrpBoundVal, aeval, bindList, natOfDigits, digitVal]
    norm_num
  have h₄ : rrpBoundVal ℝ Real.pi "-3*(5+4)" = 83 := by
    simp [rrpBoundVal, aeval, bindList, natOfDigits, digitVal]
    norm_num
  rw [h₁, h₂, h₃, h₄]
  norm_num

/-- C4 counterexample: invoked as `rp(-3*(5+4))`, the routine's bound
parameter — the evaluated actual parameter expression that the expander
binds to the formal `p` (spec §4.4 step 1) — is `-27` under standard
operator precedence, parenthesization and unary minus, not `27` as the
claim states (`27` is the parameter the body gates emit after applying the
body's `(-p)`). -/
theorem bound_param_not_27 :
    rpBoundVal ℚ 0 "-3*(5+4)" = -27 ∧ ¬ rpBoundVal ℚ 0 "-3*(5+4)" = 27 := by
  have h : rpBoundVal ℚ 0 "-3*(5+4)" = -27 := by
    simp [rpBoundVal, aeval, natOfDigits, digitVal]
    norm_num
  exact ⟨h, by rw [h]; norm_num⟩

/-- C4 (amended): arithmetic parameter expressions of a routine call are
fully evaluated with standard precedence, parenthesization and unary minus
before substitution — `rp(-3*(5+4))` evaluates its bound parameter to `-27`
(so the body's `(-p)` gates emit `27`), `rp(-pi/2)` binds `-pi/2` exactly,
and the emitted first gate parameters of the four test calls are `27`,
`pi/2`, `11` and `-17`. -/
theorem eval_params_amended :
    rpBoundVal ℚ 0 "-3*(5+4)" = -27 ∧
    rpBoundVal ℝ Real.pi "-pi/2" = -(Real.pi / 2) ∧
    (parseProg ℝ Real.pi 100 prog4).map
        (fun r => (r.1, r.2.map (fun o => o.params.headD 0))) =
      Except.ok (1,
        List.replicate 12 (27 : ℝ) ++ List.replicate 12 (Real.pi / 2) ++
        List.replicate 12 (11 : ℝ) ++ List.replicate 12 (-17)) := by
  refine ⟨?_, ?_, ?_⟩
  · simp [rpBoundVal, aeval, natOfDigits, digitVal]
    norm_num
  · simp [rpBoundVal, aeval, natOfDigits, digitVal]
    ring_nf
  · rw [prog4_params ℝ Real.pi]
    have h₁ : rpBoundVal ℝ Real.pi "-3*(5+4)" = -27 := by
      simp [rpBoundVal, aeval, natOfDigits, digitVal]
      norm_num
    have h₂ : rpBoundVal ℝ Real.pi "-pi/2" = -(Real.pi / 2) := by
      simp [rpBoundVal, aeval, natOfDigits, digitVal]
      ring_nf
    have h₃ : rpBoundVal ℝ Real.pi "-3*5+4" = -11 := by
      simp [rpBoundVal, aeval, natOfDigits, digitVal]
      norm_num
    have h₄ : rpBoundVal ℝ Real.pi "-3+5*4" = 17 := by
      simp [rpBoundVal, aeval, natOfDigits, digitVal]
      norm_num
    rw [h₁, h₂, h₃, h₄]
    norm_num

/-- C5: `reset` and `measure` are never permitted as the guarded statement
of an `if (...)` — the parser always raises `ImplementationError` on them,
for any register layout, table and guard; concretely, parsing
`if (c==1) reset q;` and `if (c==1) measure q -> c;` over the test header
raises `ImplementationError`. -/
theorem if_measure_reset_error :
    (∀ (piv : ℚ) (qregs cregs : List (String × Nat)) (fuel : Nat)
        (table : List (String × RoutineDef)) (creg : String) (lit : Nat)
        (q c : String),
        processStmt ℚ piv qregs cregs fuel table
          (QStmt.ifeq creg lit (QStmt.measureS q c)) =
          Except.error PErr.implementationError ∧
        processStmt ℚ piv qregs cregs fuel table
          (QStmt.ifeq creg lit (QStmt.resetS q)) =
          Except.error PErr.implementationError) ∧
    parseProg ℚ 0 100 ⟨[("q", 4)], [("c", 4)],
        [QStmt.ifeq "c" 1 (QStmt.resetS "q")]⟩ =
      Except.error PErr.implementationError ∧
    parseProg ℚ 0 100 ⟨[("q", 4)], [("c", 4)],
        [QStmt.ifeq "c" 1 (QStmt.measureS "q" "c")]⟩ =
      Except.error PErr.implementationError := by
  refine ⟨?_, by decide, by decide⟩
  intro piv qregs cregs fuel table creg lit q c
  exact ⟨rfl, rfl⟩

/-- C6: every standard gate with zero parameters, applied bare to the
correct number of qubit operands, parses successfully; every standard gate
requiring `N > 0` parameters, invoked with fewer than `N` (including
zero), raises `InvalidParameterNumber`. -/
theorem missing_params_error : ∀ e ∈ standardGates,
    (e.2.2.2 = 0 →
      (parseProg ℚ 0 100 (applyProg (dummyInvoke e.2.1 0 e.2.2.1))).map
        (fun r => (r.1, r.2.map (fun o => o.type))) =
        Except.ok (1, [OpKind.GATETYPE])) ∧
    (∀ k, k < e.2.2.2 →
      parseProg ℚ 0 100 (applyProg (dummyInvoke e.2.1 k e.2.2.1)) =
        Except.error PErr.invalidParameterNumber) := by decide

/-- C6 witness: `h q[0];` parses successfully, and `rx q[0];` — zero of
the required one parameter — raises `InvalidParameterNumber`. -/
theorem missing_params_error_witness :
    (parseProg ℚ 0 100 (applyProg (dummyInvoke "h" 0 1))).map
      (fun r => (r.1, r.2.map (fun o => o.type))) = Except.ok (1, [OpKind.GATETYPE]) ∧
    parseProg ℚ 0 100 (applyProg (dummyInvoke "rx" 0 1)) =
      Except.error PErr.invalidParameterNumber :=
  ⟨(missing_params_error ("H", "h", 1, 0) (by decide)).1 (by decide),
   (missing_params_error ("RX", "rx", 1, 1) (by decide)).2 0 (by decide)⟩

/-- C7: `extract_inc` replaces every `include "name";` directive,
depth-first and recursively, by the full contents of the named file,
preserving surrounding literal lines in textual order — on the fixture
`test1 → test2 → test3` it returns exactly `"1\n2\n3\n4\n5\n"`. -/
theorem extract_inc_fixture :
    extract_inc incFS 32 "test1" = some "1\n2\n3\n4\n5\n" := by decide

/-- C8: for every entry of the standard gate table, the surface token
obtained from the reversed `standard_gates` mapping, applied with
well-formed parameters and qubit operands, parses back to the same
canonical gate id, and the full-program parse returns success value 1. -/
theorem standard_gate_roundtrip : ∀ e ∈ standardGates,
    lookupStr reverse_dic e.1 = some e.2.1 ∧
    (parseProg ℚ 0 100 (applyProg (dummyInvoke e.2.1 e.2.2.2 e.2.2.1))).map
      (fun r => (r.1, r.2.map (fun o => o.gate))) = Except.ok (1, [e.1]) := by decide

/-- C8 witness: `CNOT` reverses to `cx`, and `cx q[0], q[1];` parses back
to canonical `CNOT` with success value 1. -/
theorem standard_gate_roundtrip_witness :
    lookupStr reverse_dic "CNOT" = some "cx" ∧
    (parseProg ℚ 0 100 (applyProg (dummyInvoke "cx" 0 2))).map
      (fun r => (r.1, r.2.map (fun o => o.gate))) = Except.ok (1, ["CNOT"]) :=
  standard_gate_roundtrip ("CNOT", "cx", 2, 0) (by decide)

/-- C9: the qiskit-to-QLM converter's `get_qindex` does resolve `r[i]` to
the flat index "sum of the sizes of registers declared before `r`, plus
`i`" (here `b[1]` over `a[2], b[2]` gives `2 + 1 = 3`), but the qubit
allocation loop of `to_qlm_circ` computes `acc + (acc + size)` per
register, allocating 6 qubits where the sum of the register sizes is 4 —
the claim's allocation clause fails on the code. -/
theorem to_qlm_circ_alloc_bug :
    get_qindex [("a", 2), ("b", 2)] "b" 1 = some 3 ∧
    to_qlm_circ_qbits_num [("a", 2), ("b", 2)] = 6 ∧
    ([("a", 2), ("b", 2)].map (fun r : String × Nat => r.2)).sum = 4 := by decide

/-- C10: on any multi-shot pyquil result (here two shots of one qubit,
both measuring 0) the pyquil `generate_qlm_result` fails — its error-bar
expression applies the float `1.-freq/nbshots` to `(nbshots-1)` — while
the qiskit `generate_qlm_result` on the same statistics produces the
sample with probability `freq/nbshots` and error bar
`sqrt(freq/nbshots*(1-freq/nbshots)/(nbshots-1))` (here 1 and 0); with a
single shot both agree on probability 1 and error bar `none`. -/
theorem pyquil_err_expr_bug :
    Pyquil.generate_qlm_result ℚ [[0], [0]] =
      Except.error "TypeError: float object is not callable" ∧
    Qiskit.generate_qlm_result ℚ id 2 [(0, 2)] = [⟨0, 1, some 0⟩] ∧
    Pyquil.generate_qlm_result ℚ [[1]] = Except.ok [⟨1, 1, none⟩] ∧
    Qiskit.generate_qlm_result ℚ id 1 [(1, 1)] = [⟨1, 1, none⟩] := by
  refine ⟨by decide, ?_, ?_, ?_⟩
  · simp [Qiskit.generate_qlm_result]
  · simp [Pyquil.generate_qlm_result, Pyquil.counter, List.mapM.loop]
  · simp [Qiskit.generate_qlm_result]
